import Mathlib

/-!
Verification development for the WhatsApp→Telegram forwarder
(`src/whatsapp-telegram-forwarder/main.py`).

The core under study is the contact-resolution and message-processing
pipeline of class `WhatsAppTelegramForwarder`:

* `get_contact_info` (lines 402–432): cache keyed by raw sender string,
  phone extraction via the regex `\+(\d{1,3}[\s-]?\d{4,14})`, placeholder
  ids `unknown_N`;
* `process_message` (lines 288–358): field defaulting, media pipeline,
  history / chat-group / active-chat updates, outbound send;
* `download_and_send_media` (lines 360–400): fetch, send-file, cleanup;
* `chats_handler` (lines 463–474) and the `/history` chunking
  (lines 530–537).

Strings are Lean `String`s; Python lists and (insertion-ordered) dicts are
Lean lists and association lists; the regex engine's behaviour on this one
pattern is embedded directly (greedy matching with backtracking, leftmost
search).  Side effects (Telegram sends, file writes, logging) are recorded
as an explicit effect trace; external outcomes (HTTP status of the media
fetch, success of the Telegram calls, the clock) enter through an
environment record.
-/

/-- `Contact` dict built in `get_contact_info` (lines 425–429). -/
structure Contact where
  display_name : String
  phone_number : String
  id : String
deriving DecidableEq

/-- One entry of `self.message_history[contact_id]` (lines 333–339). -/
structure MessageRecord where
  id : String
  text : String
  direction : String
  timestamp : String
  chat : String
deriving DecidableEq

/-- The mutable state of `WhatsAppTelegramForwarder` relevant to the core:
`self.contacts` (dict keyed by raw sender string), `self.message_history`
(dict keyed by contact id), `self.chat_groups` (dict keyed by contact id),
`self.active_chats` (list of contact ids).  Python dicts preserve insertion
order, so each dict is an association list with at most one binding per key,
new keys appended at the end. -/
structure ForwarderState where
  contacts : List (String × Contact)
  message_history : List (String × List MessageRecord)
  chat_groups : List (String × List String)
  active_chats : List String
deriving DecidableEq

/-- State right after `__init__` (lines 54–57): all four structures empty. -/
def initialState : ForwarderState := ⟨[], [], [], []⟩

/-! ### The phone regex `\+(\d{1,3}[\s-]?\d{4,14})` (line 411)

Modelled as Python `re.search` behaves on this pattern: scan start
positions left to right; at a `+`, try the country code greedily
(3 digits, then 2, then 1), then the optional `[\s-]` separator
(present first, then absent), then `\d{4,14}` greedily.
The returned value is `group(1)` (everything after the `+`). -/

/-- Python `\d` on the ASCII inputs of interest: a decimal digit. -/
def pyIsDigit (c : Char) : Bool := '0' ≤ c && c ≤ '9'

/-- Python `\s` (ASCII range): space, tab, newline, carriage return,
vertical tab, form feed. -/
def pyIsSpace (c : Char) : Bool :=
  c = ' ' || c = '\t' || c = '\n' || c = '\r' || c = '\x0b' || c = '\x0c'

/-- The character class `[\s-]`. -/
def isSepChar (c : Char) : Bool := pyIsSpace c || c = '-'

/-- Length of the leading run of digits. -/
def digitRun : List Char → Nat
  | [] => 0
  | c :: cs => if pyIsDigit c then digitRun cs + 1 else 0

/-- Match `\d{4,14}` greedily at the start of `rest`: take as many leading
digits as possible, capped at 14; fail below 4. -/
def matchTail (rest : List Char) : Option (List Char) :=
  let k := min 14 (digitRun rest)
  if 4 ≤ k then some (rest.take k) else none

/-- The branch of `[\s-]?` that consumes a separator: succeeds only when
`rest` starts with a `[\s-]` character followed by a `\d{4,14}` match. -/
def trySepTail (cc rest : List Char) : Option (List Char) :=
  match rest with
  | [] => none
  | c :: rest2 =>
    if isSepChar c then (matchTail rest2).map (fun d => cc ++ c :: d) else none

/-- With exactly `a` country-code digits consumed, match `[\s-]?\d{4,14}`:
the separator branch is tried first (greedy `?`), then the empty branch. -/
def tryCC (s : List Char) (a : Nat) : Option (List Char) :=
  if a ≤ digitRun s then
    let cc := s.take a
    let rest := s.drop a
    match trySepTail cc rest with
    | some r => some r
    | none => (matchTail rest).map (fun d => cc ++ d)
  else none

/-- Backtracking over the greedy `\d{1,3}`: country code of 3 digits first,
then 2, then 1. `s` is the text just after the `+`. -/
def matchGroup (s : List Char) : Option (List Char) :=
  match tryCC s 3 with
  | some r => some r
  | none =>
    match tryCC s 2 with
    | some r => some r
    | none => tryCC s 1

/-- `re.search` of the pattern: first (leftmost) `+` at which the rest of
the pattern matches; returns `group(1)`. -/
def pySearchPhone : List Char → Option (List Char)
  | [] => none
  | c :: cs =>
    if c = '+' then
      match matchGroup cs with
      | some g => some g
      | none => pySearchPhone cs
    else pySearchPhone cs

/-! ### Python string primitives used by `get_contact_info` -/

/-- `.replace(' ', '').replace('-', '')` applied to `group(1)` (line 415):
removes every space and hyphen. -/
def stripSeps (g : List Char) : List Char :=
  g.filter (fun c => !(c = ' ' || c = '-'))

/-- Fuel-driven core of Python `str.replace`: leftmost, non-overlapping,
skips past each match.  The pattern is `p :: ps` (always non-empty at call
sites: it starts with a parenthesis).  Fuel is the length of the subject,
which strictly bounds the recursion. -/
def pyReplaceAux (p : Char) (ps rep : List Char) : Nat → List Char → List Char
  | 0, s => s
  | _ + 1, [] => []
  | n + 1, c :: cs =>
    if (c :: cs).take (ps.length + 1) = p :: ps then
      rep ++ pyReplaceAux p ps rep n (cs.drop ps.length)
    else
      c :: pyReplaceAux p ps rep n cs

/-- Python `subject.replace(pattern, replacement)` with pattern `p :: ps`. -/
def pyReplace (p : Char) (ps rep s : List Char) : List Char :=
  pyReplaceAux p ps rep s.length s

/-- Python `str.strip()` (ASCII whitespace). -/
def pyStrip (s : List Char) : List Char :=
  ((s.dropWhile pyIsSpace).reverse.dropWhile pyIsSpace).reverse

/-! ### `get_contact_info` (lines 402–432) -/

/-- `get_contact_info(sender)`: cached lookup by the raw sender string;
otherwise extract a phone number with the regex, or mint the positional
placeholder `unknown_{len(self.contacts)+1}`; store the new contact keyed
by the raw sender.  Returns the contact and the updated state. -/
def getContactInfo (st : ForwarderState) (sender : String) : Contact × ForwarderState :=
  match List.lookup sender st.contacts with
  | some c => (c, st)
  | none =>
    let c : Contact :=
      match pySearchPhone sender.data with
      | some g =>
        let phone_number := String.mk (stripSeps g)
        let stripped := String.mk (pyStrip (pyReplace '(' ('+' :: (g ++ [')'])) [] sender.data))
        let display_name := if stripped = "" then sender else stripped
        { display_name := display_name, phone_number := phone_number, id := phone_number }
      | none =>
        let phone_number := "unknown_" ++ toString (st.contacts.length + 1)
        { display_name := sender, phone_number := phone_number, id := phone_number }
    (c, { st with contacts := st.contacts ++ [(sender, c)] })

/-! ### Effects and environment

`process_message` and `download_and_send_media` interact with the outside
world (Telegram sends, the filesystem, the logger, HTTP, the clock).  Those
interactions are recorded as an effect trace; their outcomes are supplied
by an environment record. -/

/-- One observable side effect of the pipeline. -/
inductive Effect where
  | logInfo (msg : String)
  | logError (msg : String)
  | wroteTemp (path : String)
  | sentFile (path : String) (caption : String)
  | removedTemp (path : String)
  | sentText (body : String)
deriving DecidableEq

/-- Outcomes of the external calls made while processing one observation:
the HTTP status of the media fetch (line 372), whether
`telegram_client.send_file` / `send_message` raise (and with what message),
and the transient file name `temp_media_{int(datetime.now().timestamp())}{ext}`
(line 368), which depends on the clock and the url extension. -/
structure Env where
  fetchStatus : Nat
  sendFileOk : Bool
  sendFileErr : String
  sendTextOk : Bool
  sendTextErr : String
  tempName : String
deriving DecidableEq

/-- The raw `message_data` dict consumed by `process_message`; every field
is optional because the code reads each one with `.get` and a default
(lines 290–297). -/
structure RawObservation where
  id : Option String
  sender : Option String
  text : Option String
  chat : Option String
  is_outgoing : Option Bool
  has_media : Option Bool
  media_url : Option String
  timestamp : Option String
deriving DecidableEq

/-! ### `download_and_send_media` (lines 360–400) -/

/-- The caption built at lines 379–384. -/
def mediaCaption (direction : String) (c : Contact) (chat_title timestamp : String) : String :=
  direction ++ " WhatsApp Media\n" ++
  "👤 Contact: " ++ c.display_name ++ " (" ++ c.phone_number ++ ")\n" ++
  "💬 Chat: " ++ chat_title ++ "\n" ++
  "🕒 Time: " ++ timestamp

/-- Body of `download_and_send_media` before its `except` clause: the list
of effects performed, paired with `some e` if an exception with message `e`
escapes the `try` block.  On HTTP 200 the file is written and sent; the
`os.remove` at line 396 runs only after a successful send, so a raising
`send_file` leaves the transient file behind.  On any other status only the
error log at line 398 happens. -/
def downloadAndSendMediaRaw (env : Env) (c : Contact)
    (direction chat_title timestamp : String) : List Effect × Option String :=
  if env.fetchStatus = 200 then
    let caption := mediaCaption direction c chat_title timestamp
    if env.sendFileOk then
      ([Effect.wroteTemp env.tempName,
        Effect.sentFile env.tempName caption,
        Effect.logInfo ("Media forwarded to Telegram: " ++ direction ++ " - " ++ c.display_name),
        Effect.removedTemp env.tempName], none)
    else
      ([Effect.wroteTemp env.tempName], some env.sendFileErr)
  else
    ([Effect.logError ("Failed to download media: HTTP " ++ toString env.fetchStatus)], none)

/-- `download_and_send_media` with its `except Exception` handler
(lines 399–400): an escaping exception is caught and logged, so the
function never raises to its caller. -/
def downloadAndSendMedia (env : Env) (c : Contact)
    (direction chat_title timestamp : String) : List Effect :=
  match downloadAndSendMediaRaw env c direction chat_title timestamp with
  | (effs, none) => effs
  | (effs, some e) => effs ++ [Effect.logError ("Error downloading and sending media: " ++ e)]

/-! ### `process_message` (lines 288–358) -/

/-- The MessageRecord appended at lines 333–339, with the defaults of
lines 290–297 applied. -/
def mkRecord (now : String) (raw : RawObservation) : MessageRecord :=
  { id := raw.id.getD ""
    text := raw.text.getD ""
    direction := if raw.is_outgoing.getD false then "outgoing" else "incoming"
    timestamp := raw.timestamp.getD now
    chat := raw.chat.getD "Unknown Chat" }

/-- The outbound text built at lines 322–328. -/
def formatMessage (direction : String) (c : Contact) (chat_title text timestamp : String) : String :=
  direction ++ " WhatsApp Message\n" ++
  "👤 Contact: " ++ c.display_name ++ " (" ++ c.phone_number ++ ")\n" ++
  "💬 Chat: " ++ chat_title ++ "\n" ++
  "📝 Message: " ++ text ++ "\n" ++
  "🕒 Time: " ++ timestamp

/-- `dict.setdefault`-style append used for `message_history` and
`chat_groups` (lines 331–339, 342–344): if the key is absent add a fresh
binding at the end (dict insertion order), else append to the existing
value in place. -/
def appendAssoc {α : Type} (l : List (String × List α)) (k : String) (v : α) :
    List (String × List α) :=
  match l with
  | [] => [(k, [v])]
  | (k', vs) :: rest =>
    if k = k' then (k', vs ++ [v]) :: rest else (k', vs) :: appendAssoc rest k v

/-- `process_message(message_data)`: defaults the fields, resolves the
contact, runs the media pipeline when `has_media and media_url` is truthy
(empty-string urls are falsy in Python), and for non-empty text appends to
history, chat groups and (once per contact id) active chats, then sends the
formatted message.  `now` stands for `datetime.now().isoformat()`.
Returns the new state and the effect trace. -/
def processMessage (env : Env) (now : String) (st : ForwarderState)
    (raw : RawObservation) : ForwarderState × List Effect :=
  let sender := raw.sender.getD "Unknown"
  let text := raw.text.getD ""
  let chat_title := raw.chat.getD "Unknown Chat"
  let is_outgoing := raw.is_outgoing.getD false
  let has_media := raw.has_media.getD false
  let timestamp := raw.timestamp.getD now
  let resolved := getContactInfo st sender
  let contact_info := resolved.1
  let st1 := resolved.2
  let direction := if is_outgoing then "📤 Sent" else "📥 Received"
  let mediaEffs :=
    if has_media then
      match raw.media_url with
      | some url =>
        if url = "" then []
        else downloadAndSendMedia env contact_info direction chat_title timestamp
      | none => []
    else []
  if text = "" then (st1, mediaEffs)
  else
    let formatted := formatMessage direction contact_info chat_title text timestamp
    let st2 : ForwarderState :=
      { st1 with
        message_history := appendAssoc st1.message_history contact_info.id (mkRecord now raw)
        chat_groups := appendAssoc st1.chat_groups contact_info.id formatted
        active_chats :=
          if contact_info.id ∈ st1.active_chats then st1.active_chats
          else st1.active_chats ++ [contact_info.id] }
    let sendEffs :=
      if env.sendTextOk then
        [Effect.sentText formatted,
         Effect.logInfo ("Message forwarded to Telegram: " ++ direction ++ " - " ++ sender
           ++ " - " ++ String.mk (text.data.take 50) ++ "...")]
      else [Effect.logError ("Error forwarding message to Telegram: " ++ env.sendTextErr)]
    (st2, mediaEffs ++ sendEffs)

/-- `self.message_history.get(cid, [])`: the history of one contact id. -/
def historyAt (st : ForwarderState) (cid : String) : List MessageRecord :=
  (List.lookup cid st.message_history).getD []

/-! ### `chats_handler` (lines 463–474) -/

/-- Python `l[-10:]`: the last `n` elements. -/
def lastN {α : Type} (n : Nat) (l : List α) : List α := l.drop (l.length - n)

/-- The loop of lines 470–472, position `i` starting at 1.  For each active
chat id the code does `self.contacts.get(contact_id, {'display_name':
contact_id})` and then reads both `['display_name']` and
`['phone_number']`; since `self.contacts` is keyed by raw sender strings
while `contact_id` is a contact id, a miss hands the fallback dict — which
has no `'phone_number'` key — to the f-string, raising `KeyError`.
`Except.error` models that exception. -/
def renderChats (st : ForwarderState) : Nat → List String → Except String String
  | _, [] => Except.ok ""
  | i, cid :: rest =>
    match List.lookup cid st.contacts with
    | some ci =>
      match renderChats st (i + 1) rest with
      | Except.ok tail =>
        Except.ok (toString i ++ ". " ++ ci.display_name ++ " (" ++ ci.phone_number ++ ")\n" ++ tail)
      | Except.error e => Except.error e
    | none => Except.error "KeyError: phone_number"

/-- `chats_handler`: `"No active chats yet."` on an empty active list, else
the header plus one rendered line per entry of `active_chats[-10:]`;
`Except.error` is the `KeyError` escaping the handler (no reply is sent). -/
def chatsHandler (st : ForwarderState) : Except String String :=
  if st.active_chats = [] then Except.ok "No active chats yet."
  else
    match renderChats st 1 (lastN 10 st.active_chats) with
    | Except.ok body => Except.ok ("Recent Chats:\n" ++ body)
    | Except.error e => Except.error e

/-! ### `/history` chunking (lines 530–537) -/

/-- The list comprehension
`[history_text[i:i+m] for i in range(0, len(history_text), m)]`
(line 533): chunk `k` is the slice starting at `k * m`, of length at most
`m`; there are `⌈len / m⌉` chunks. -/
def historyChunks (m : Nat) (s : List Char) : List (List Char) :=
  (List.range ((s.length + m - 1) / m)).map (fun k => (s.drop (k * m)).take m)

/-- Lines 531–537: texts longer than `max_message_length` are sent as the
chunks above, one reply per chunk; shorter texts are sent whole. -/
def historySegments (maxLen : Nat) (s : List Char) : List (List Char) :=
  if s.length > maxLen then historyChunks maxLen s else [s]

/-- Declarative shape of a group the pattern `\+(\d{1,3}[\s-]?\d{4,14})`
can capture: 1–3 digits, at most one `[\s-]` separator, then 4–14 digits
with no internal separators.  Stated from the pattern itself, to be related
to the executable matcher `pySearchPhone`. -/
def GoodPhoneGroup (g : List Char) : Prop :=
  ∃ a sep b, g = a ++ sep ++ b ∧
    1 ≤ a.length ∧ a.length ≤ 3 ∧ a.all pyIsDigit = true ∧
    (sep = [] ∨ ∃ c, sep = [c] ∧ isSepChar c = true) ∧
    4 ≤ b.length ∧ b.length ≤ 14 ∧ b.all pyIsDigit = true

/-! ### Concrete inputs used by witnesses and counterexamples -/

/-- An environment in which every external call succeeds. -/
def envOK : Env :=
  { fetchStatus := 200, sendFileOk := true, sendFileErr := "", sendTextOk := true,
    sendTextErr := "", tempName := "temp_media_1700000000.jpg" }

/-- An environment whose media fetch returns HTTP 404. -/
def env404 : Env :=
  { fetchStatus := 404, sendFileOk := true, sendFileErr := "", sendTextOk := true,
    sendTextErr := "", tempName := "temp_media_1700000000.jpg" }

/-- An environment whose media fetch succeeds but whose `send_file` call
raises. -/
def envSendFail : Env :=
  { fetchStatus := 200, sendFileOk := false, sendFileErr := "send_file failed",
    sendTextOk := true, sendTextErr := "", tempName := "temp_media_1700000099.jpg" }

/-- A plain text observation from `"Alice (+1 5550100)"`. -/
def obsAlice : RawObservation :=
  { id := some "m1", sender := some "Alice (+1 5550100)", text := some "hi",
    chat := some "Alice", is_outgoing := some false, has_media := some false,
    media_url := none, timestamp := some "2024-01-01T00:00:00" }

/-- A media observation from `"Bob"` with non-empty text. -/
def obsMedia : RawObservation :=
  { id := some "m2", sender := some "Bob", text := some "pic",
    chat := some "Bob", is_outgoing := some false, has_media := some true,
    media_url := some "http://example.com/photo.jpg",
    timestamp := some "2024-01-01T00:00:01" }

/-- An observation with missing text and no media. -/
def obsEmpty : RawObservation :=
  { id := some "m3", sender := some "Carol", text := none,
    chat := some "Carol", is_outgoing := some false, has_media := none,
    media_url := none, timestamp := some "2024-01-01T00:00:02" }

/-! ## Helper lemmas -/

theorem lookup_append_eq_of_none {β : Type} (l : List (String × β)) (k : String) (v : β)
    (h : List.lookup k l = none) : List.lookup k (l ++ [(k, v)]) = some v := by
  induction l with
  | nil => simp [List.lookup]
  | cons p rest ih =>
    obtain ⟨k', v'⟩ := p
    simp only [List.lookup, List.cons_append] at h ⊢
    cases hk : (k == k') with
    | true => simp [hk] at h
    | false => simp only [hk] at h ⊢; exact ih h

theorem getContactInfo_lookup (st : ForwarderState) (sender : String) :
    List.lookup sender (getContactInfo st sender).2.contacts
      = some (getContactInfo st sender).1 := by
  cases h : List.lookup sender st.contacts with
  | some c => simp [getContactInfo, h]
  | none =>
    simp only [getContactInfo, h]
    exact lookup_append_eq_of_none _ _ _ h

theorem getContactInfo_stable (st : ForwarderState) (sender : String) :
    getContactInfo (getContactInfo st sender).2 sender = getContactInfo st sender := by
  conv_lhs => rw [getContactInfo.eq_def]
  rw [getContactInfo_lookup]

theorem getContactInfo_message_history (st : ForwarderState) (s : String) :
    (getContactInfo st s).2.message_history = st.message_history := by
  cases h : List.lookup s st.contacts with
  | some c => simp [getContactInfo, h]
  | none => simp [getContactInfo, h]

theorem getContactInfo_chat_groups (st : ForwarderState) (s : String) :
    (getContactInfo st s).2.chat_groups = st.chat_groups := by
  cases h : List.lookup s st.contacts with
  | some c => simp [getContactInfo, h]
  | none => simp [getContactInfo, h]

theorem getContactInfo_active_chats (st : ForwarderState) (s : String) :
    (getContactInfo st s).2.active_chats = st.active_chats := by
  cases h : List.lookup s st.contacts with
  | some c => simp [getContactInfo, h]
  | none => simp [getContactInfo, h]

theorem getContactInfo_contacts_of_none (st : ForwarderState) (s : String)
    (h : List.lookup s st.contacts = none) :
    (getContactInfo st s).2.contacts = st.contacts ++ [(s, (getContactInfo st s).1)] := by
  simp [getContactInfo, h]

/-! ## Claim theorems -/

/-- C1: resolving the same raw sender string a second time returns the
identical Contact with no state change (the cache at lines 406–407 hits);
in particular two resolutions of `"Unknown Caller"` from a fresh state both
yield the contact with `phone_number = "unknown_1"` — the second call does
not mint `"unknown_2"`. -/
theorem C1_identity_stability :
    (∀ (st : ForwarderState) (s : String),
        getContactInfo (getContactInfo st s).2 s = getContactInfo st s) ∧
    ((getContactInfo initialState "Unknown Caller").1.phone_number = "unknown_1" ∧
     (getContactInfo (getContactInfo initialState "Unknown Caller").2 "Unknown Caller").1.phone_number
        = "unknown_1" ∧
     (getContactInfo (getContactInfo initialState "Unknown Caller").2 "Unknown Caller").1
        = (getContactInfo initialState "Unknown Caller").1 ∧
     (getContactInfo (getContactInfo initialState "Unknown Caller").2 "Unknown Caller").2
        = (getContactInfo initialState "Unknown Caller").2) := by
  refine ⟨getContactInfo_stable, by decide, by decide, by decide, by decide⟩

/-- C3: a sender with no phone-shaped substring resolves (on a cache miss)
to `display_name = sender` and `phone_number = id =
"unknown_" ++ (current contact count + 1)` (line 423), growing the contact
table by one — so successive fresh unresolved senders get `unknown_1`,
`unknown_2`, … in order of first appearance, unique only within a run. -/
theorem C3_placeholder_numbering :
    (∀ (st : ForwarderState) (s : String),
      List.lookup s st.contacts = none →
      pySearchPhone s.data = none →
      (getContactInfo st s).1.display_name = s ∧
      (getContactInfo st s).1.phone_number = "unknown_" ++ toString (st.contacts.length + 1) ∧
      (getContactInfo st s).1.id = "unknown_" ++ toString (st.contacts.length + 1) ∧
      (getContactInfo st s).2.contacts.length = st.contacts.length + 1) ∧
    ((getContactInfo initialState "Unknown Caller").1.phone_number = "unknown_1" ∧
     (getContactInfo (getContactInfo initialState "Unknown Caller").2 "Another Caller").1.phone_number
        = "unknown_2") := by
  constructor
  · intro st s h1 h2
    refine ⟨?_, ?_, ?_, ?_⟩ <;> simp [getContactInfo, h1, h2]
  · exact ⟨by decide, by decide⟩

/-- Witness for C3 at a concrete fresh unresolved sender. -/
theorem C3_placeholder_numbering_witness :
    List.lookup "Unknown Caller" initialState.contacts = none ∧
    pySearchPhone ("Unknown Caller").data = none ∧
    ((getContactInfo initialState "Unknown Caller").1.display_name = "Unknown Caller" ∧
     (getContactInfo initialState "Unknown Caller").1.phone_number
        = "unknown_" ++ toString (initialState.contacts.length + 1) ∧
     (getContactInfo initialState "Unknown Caller").1.id
        = "unknown_" ++ toString (initialState.contacts.length + 1) ∧
     (getContactInfo initialState "Unknown Caller").2.contacts.length
        = initialState.contacts.length + 1) :=
  ⟨by decide, by decide,
    C3_placeholder_numbering.1 initialState "Unknown Caller" (by decide) (by decide)⟩

theorem digitRun_le_length (s : List Char) : digitRun s ≤ s.length := by
  induction s with
  | nil => simp [digitRun]
  | cons c cs ih =>
    simp only [digitRun, List.length_cons]
    split <;> omega

theorem all_take_of_le_digitRun (s : List Char) (k : Nat) (hk : k ≤ digitRun s) :
    (s.take k).all pyIsDigit = true := by
  induction s generalizing k with
  | nil =>
    simp [digitRun] at hk
    simp [hk]
  | cons c cs ih =>
    cases k with
    | zero => simp
    | succ k' =>
      simp only [digitRun] at hk
      by_cases hc : pyIsDigit c
      · rw [if_pos hc] at hk
        simp only [List.take_succ_cons, List.all_cons, hc, Bool.true_and]
        exact ih k' (by omega)
      · rw [if_neg hc] at hk
        omega

theorem matchTail_spec (rest d : List Char) (h : matchTail rest = some d) :
    (∃ t, rest = d ++ t) ∧ 4 ≤ d.length ∧ d.length ≤ 14 ∧ d.all pyIsDigit = true := by
  simp only [matchTail] at h
  split at h
  · next hge =>
    have hd : d = rest.take (min 14 (digitRun rest)) := by
      cases h; rfl
    subst hd
    have hrun : min 14 (digitRun rest) ≤ rest.length :=
      le_trans (min_le_right _ _) (digitRun_le_length rest)
    refine ⟨⟨rest.drop (min 14 (digitRun rest)), (List.take_append_drop _ _).symm⟩, ?_, ?_, ?_⟩
    · rw [List.length_take]; omega
    · rw [List.length_take]; omega
    · exact all_take_of_le_digitRun rest _ (min_le_right _ _)
  · exact absurd h (by simp)

theorem sep_not_digit (c : Char) (h : isSepChar c = true) : pyIsDigit c = false := by
  simp only [isSepChar, pyIsSpace, Bool.or_eq_true, decide_eq_true_eq] at h
  rcases h with ((((( h | h ) | h ) | h ) | h ) | h ) | h <;> subst h <;> decide

theorem matchTail_sep_none (c : Char) (rest2 : List Char) (h : isSepChar c = true) :
    matchTail (c :: rest2) = none := by
  simp [matchTail, digitRun, sep_not_digit c h]

theorem tryCC_spec (s : List Char) (a : Nat) (r : List Char)
    (ha1 : 1 ≤ a) (ha3 : a ≤ 3) (h : tryCC s a = some r) :
    (∃ t, s = r ++ t) ∧ GoodPhoneGroup r := by
  simp only [tryCC] at h
  split at h
  case isFalse => exact absurd h (by simp)
  case isTrue hle =>
    have hlen : (s.take a).length = a := by
      rw [List.length_take]
      have := digitRun_le_length s
      omega
    have hall : (s.take a).all pyIsDigit = true := all_take_of_le_digitRun s a hle
    have hsplit : s = s.take a ++ s.drop a := (List.take_append_drop a s).symm
    cases hrest : s.drop a with
    | nil =>
      rw [hrest] at h
      simp only [trySepTail, matchTail, digitRun] at h
      simp at h
    | cons c rest2 =>
      rw [hrest] at h
      simp only [trySepTail] at h
      by_cases hsep : isSepChar c = true
      · rw [if_pos hsep] at h
        cases hmt : matchTail rest2 with
        | some d =>
          rw [hmt, Option.map_some'] at h
          obtain ⟨⟨t, ht⟩, hd4, hd14, hdall⟩ := matchTail_spec rest2 d hmt
          cases h
          constructor
          · refine ⟨t, ?_⟩
            conv_lhs => rw [hsplit, hrest, ht]
            simp
          · exact ⟨s.take a, [c], d, by simp, by omega, by omega, hall,
              Or.inr ⟨c, rfl, hsep⟩, hd4, hd14, hdall⟩
        | none =>
          rw [hmt] at h
          rw [matchTail_sep_none c rest2 hsep] at h
          simp at h
      · rw [if_neg hsep] at h
        cases hmt : matchTail (c :: rest2) with
        | some d =>
          rw [hmt, Option.map_some'] at h
          obtain ⟨⟨t, ht⟩, hd4, hd14, hdall⟩ := matchTail_spec (c :: rest2) d hmt
          cases h
          constructor
          · refine ⟨t, ?_⟩
            conv_lhs => rw [hsplit, hrest, ht]
            simp
          · exact ⟨s.take a, [], d, by simp, by omega, by omega, hall,
              Or.inl rfl, hd4, hd14, hdall⟩
        | none =>
          rw [hmt] at h
          simp at h

theorem matchGroup_spec (s g : List Char) (h : matchGroup s = some g) :
    (∃ t, s = g ++ t) ∧ GoodPhoneGroup g := by
  simp only [matchGroup] at h
  cases h3 : tryCC s 3 with
  | some r => rw [h3] at h; cases h; exact tryCC_spec s 3 _ (by omega) (by omega) h3
  | none =>
    rw [h3] at h
    cases h2 : tryCC s 2 with
    | some r => rw [h2] at h; cases h; exact tryCC_spec s 2 _ (by omega) (by omega) h2
    | none =>
      rw [h2] at h
      exact tryCC_spec s 1 _ (by omega) (by omega) h

theorem pySearchPhone_spec (s g : List Char) (h : pySearchPhone s = some g) :
    (∃ pre t, s = pre ++ '+' :: (g ++ t)) ∧ GoodPhoneGroup g := by
  induction s with
  | nil => simp [pySearchPhone] at h
  | cons c cs ih =>
    simp only [pySearchPhone] at h
    by_cases hc : c = '+'
    · rw [if_pos hc] at h
      cases hm : matchGroup cs with
      | some g' =>
        rw [hm] at h
        cases h
        obtain ⟨⟨t, ht⟩, hgood⟩ := matchGroup_spec cs g hm
        exact ⟨⟨[], t, by rw [hc, ht]; simp⟩, hgood⟩
      | none =>
        rw [hm] at h
        obtain ⟨⟨pre, t, hpt⟩, hgood⟩ := ih h
        exact ⟨⟨c :: pre, t, by rw [hpt]; simp⟩, hgood⟩
    · rw [if_neg hc] at h
      obtain ⟨⟨pre, t, hpt⟩, hgood⟩ := ih h
      exact ⟨⟨c :: pre, t, by rw [hpt]; simp⟩, hgood⟩

/-- C2 counterexample: the claim's own scenario fails on the code.  The
regex `\+(\d{1,3}[\s-]?\d{4,14})` allows at most one separator, directly
after the country code, and none inside the trailing 4–14 digits, so
`"Alice (+1 555-0100)"` ("555-0100" has an interior hyphen) does not match:
`get_contact_info` takes the placeholder branch and returns
`phone_number = "unknown_1"`, not `"15550100"`, and the raw sender as the
display name. -/
theorem C2_counterexample_interior_separator :
    pySearchPhone ("Alice (+1 555-0100)").data = none ∧
    (getContactInfo initialState "Alice (+1 555-0100)").1.phone_number = "unknown_1" ∧
    (getContactInfo initialState "Alice (+1 555-0100)").1.phone_number ≠ "15550100" ∧
    (getContactInfo initialState "Alice (+1 555-0100)").1.display_name
      = "Alice (+1 555-0100)" :=
  ⟨by decide, by decide, by decide, by decide⟩

/-- C2 (amended): for every uncached sender on which the code's phone
pattern finds a match `g` — necessarily of the shape 1–3 digits, at most
one `[\s-]` separator, then 4–14 digits with no internal separator, and
occurring in the sender right after a `+` — `get_contact_info` sets
`phone_number` (and `id`) to `g` with spaces and hyphens removed, and
`display_name` to the sender with the parenthesized matched substring
`(+g)` removed and stripped, falling back to the raw sender when that is
empty.  Scenario: `"Alice (+1 5550100)"` (no interior separator) yields
`Contact{display_name: "Alice", phone_number: "15550100", id: "15550100"}`. -/
theorem C2_phone_extraction_amended :
    (∀ (st : ForwarderState) (sender : String) (g : List Char),
      List.lookup sender st.contacts = none →
      pySearchPhone sender.data = some g →
      GoodPhoneGroup g ∧
      (∃ pre t, sender.data = pre ++ '+' :: (g ++ t)) ∧
      (getContactInfo st sender).1.phone_number = String.mk (stripSeps g) ∧
      (getContactInfo st sender).1.id = String.mk (stripSeps g) ∧
      (getContactInfo st sender).1.display_name =
        (if String.mk (pyStrip (pyReplace '(' ('+' :: (g ++ [')'])) [] sender.data)) = ""
         then sender
         else String.mk (pyStrip (pyReplace '(' ('+' :: (g ++ [')'])) [] sender.data)))) ∧
    ((getContactInfo initialState "Alice (+1 5550100)").1
        = { display_name := "Alice", phone_number := "15550100", id := "15550100" }) := by
  constructor
  · intro st sender g h1 h2
    obtain ⟨hsub, hgood⟩ := pySearchPhone_spec sender.data g h2
    refine ⟨hgood, hsub, ?_, ?_, ?_⟩ <;> simp [getContactInfo, h1, h2]
  · decide

/-- Witness for C2 (amended) at the concrete sender `"Alice (+1 5550100)"`
and the empty state. -/
theorem C2_phone_extraction_amended_witness :
    List.lookup "Alice (+1 5550100)" initialState.contacts = none ∧
    pySearchPhone ("Alice (+1 5550100)").data = some ("1 5550100").data ∧
    (GoodPhoneGroup ("1 5550100").data ∧
     (∃ pre t, ("Alice (+1 5550100)").data = pre ++ '+' :: (("1 5550100").data ++ t)) ∧
     (getContactInfo initialState "Alice (+1 5550100)").1.phone_number
        = String.mk (stripSeps ("1 5550100").data) ∧
     (getContactInfo initialState "Alice (+1 5550100)").1.id
        = String.mk (stripSeps ("1 5550100").data) ∧
     (getContactInfo initialState "Alice (+1 5550100)").1.display_name =
        (if String.mk (pyStrip (pyReplace '(' ('+' :: (("1 5550100").data ++ [')'])) []
              ("Alice (+1 5550100)").data)) = ""
         then "Alice (+1 5550100)"
         else String.mk (pyStrip (pyReplace '(' ('+' :: (("1 5550100").data ++ [')'])) []
              ("Alice (+1 5550100)").data)))) :=
  ⟨by decide, by decide,
    C2_phone_extraction_amended.1 initialState "Alice (+1 5550100)" ("1 5550100").data
      (by decide) (by decide)⟩

theorem lookup_appendAssoc_self {α : Type} (l : List (String × List α)) (k : String) (v : α) :
    List.lookup k (appendAssoc l k v) = some ((List.lookup k l).getD [] ++ [v]) := by
  induction l with
  | nil => simp [appendAssoc, List.lookup]
  | cons p rest ih =>
    obtain ⟨k', vs⟩ := p
    by_cases hk : k = k'
    · subst hk
      simp [appendAssoc, List.lookup]
    · simp only [appendAssoc, if_neg hk, List.lookup,
        beq_eq_false_iff_ne.mpr hk]
      exact ih

theorem lookup_appendAssoc_ne {α : Type} (l : List (String × List α)) (k k' : String) (v : α)
    (h : k' ≠ k) : List.lookup k' (appendAssoc l k v) = List.lookup k' l := by
  induction l with
  | nil => simp [appendAssoc, List.lookup, beq_eq_false_iff_ne.mpr h]
  | cons p rest ih =>
    obtain ⟨k'', vs⟩ := p
    by_cases hk : k = k''
    · subst hk
      simp [appendAssoc, List.lookup, beq_eq_false_iff_ne.mpr h]
    · simp only [appendAssoc, if_neg hk, List.lookup]
      cases hb : (k' == k'') with
      | true => rfl
      | false => exact ih

theorem processMessage_state_of_empty_text (env : Env) (now : String) (st : ForwarderState)
    (raw : RawObservation) (h : raw.text.getD "" = "") :
    (processMessage env now st raw).1 = (getContactInfo st (raw.sender.getD "Unknown")).2 := by
  simp only [processMessage]
  rw [if_pos h]

theorem processMessage_contacts (env : Env) (now : String) (st : ForwarderState)
    (raw : RawObservation) :
    (processMessage env now st raw).1.contacts
      = (getContactInfo st (raw.sender.getD "Unknown")).2.contacts := by
  simp only [processMessage]
  by_cases h : raw.text.getD "" = ""
  · rw [if_pos h]
  · rw [if_neg h]

theorem processMessage_history_of_text (env : Env) (now : String) (st : ForwarderState)
    (raw : RawObservation) (h : raw.text.getD "" ≠ "") :
    (processMessage env now st raw).1.message_history
      = appendAssoc st.message_history
          ((getContactInfo st (raw.sender.getD "Unknown")).1.id) (mkRecord now raw) := by
  simp only [processMessage]
  rw [if_neg h]
  simp [getContactInfo_message_history]

theorem processMessage_active_of_text (env : Env) (now : String) (st : ForwarderState)
    (raw : RawObservation) (h : raw.text.getD "" ≠ "") :
    (processMessage env now st raw).1.active_chats
      = (if (getContactInfo st (raw.sender.getD "Unknown")).1.id ∈ st.active_chats
         then st.active_chats
         else st.active_chats ++ [(getContactInfo st (raw.sender.getD "Unknown")).1.id]) := by
  simp only [processMessage]
  rw [if_neg h]
  simp [getContactInfo_active_chats]

/-- C4: a contact's message history is append-only and order-preserving.
Each processed observation with non-empty text appends exactly its record
at the end of its contact's history and leaves every other contact's
history unchanged; processing two observations for the same contact id
(in particular the same observation id twice — there is no deduplication)
yields the old history followed by the two records in processing order. -/
theorem C4_history_append_only :
    (∀ (env : Env) (now : String) (st : ForwarderState) (raw : RawObservation),
      raw.text.getD "" ≠ "" →
      historyAt (processMessage env now st raw).1
          ((getContactInfo st (raw.sender.getD "Unknown")).1.id)
        = historyAt st ((getContactInfo st (raw.sender.getD "Unknown")).1.id)
            ++ [mkRecord now raw] ∧
      (∀ other, other ≠ (getContactInfo st (raw.sender.getD "Unknown")).1.id →
        historyAt (processMessage env now st raw).1 other = historyAt st other)) ∧
    (∀ (env1 env2 : Env) (now1 now2 : String) (st : ForwarderState)
        (raw1 raw2 : RawObservation),
      raw1.text.getD "" ≠ "" →
      raw2.text.getD "" ≠ "" →
      (getContactInfo (processMessage env1 now1 st raw1).1 (raw2.sender.getD "Unknown")).1.id
        = (getContactInfo st (raw1.sender.getD "Unknown")).1.id →
      historyAt (processMessage env2 now2 (processMessage env1 now1 st raw1).1 raw2).1
          ((getContactInfo st (raw1.sender.getD "Unknown")).1.id)
        = historyAt st ((getContactInfo st (raw1.sender.getD "Unknown")).1.id)
            ++ [mkRecord now1 raw1, mkRecord now2 raw2]) := by
  have step : ∀ (env : Env) (now : String) (st : ForwarderState) (raw : RawObservation),
      raw.text.getD "" ≠ "" →
      historyAt (processMessage env now st raw).1
          ((getContactInfo st (raw.sender.getD "Unknown")).1.id)
        = historyAt st ((getContactInfo st (raw.sender.getD "Unknown")).1.id)
            ++ [mkRecord now raw] := by
    intro env now st raw h
    simp only [historyAt, processMessage_history_of_text env now st raw h,
      lookup_appendAssoc_self, Option.getD_some]
  have frame : ∀ (env : Env) (now : String) (st : ForwarderState) (raw : RawObservation),
      raw.text.getD "" ≠ "" →
      ∀ other, other ≠ (getContactInfo st (raw.sender.getD "Unknown")).1.id →
        historyAt (processMessage env now st raw).1 other = historyAt st other := by
    intro env now st raw h other hne
    simp only [historyAt, processMessage_history_of_text env now st raw h,
      lookup_appendAssoc_ne _ _ _ _ hne]
  refine ⟨fun env now st raw h => ⟨step env now st raw h, frame env now st raw h⟩, ?_⟩
  intro env1 env2 now1 now2 st raw1 raw2 h1 h2 hid
  have s2 := step env2 now2 (processMessage env1 now1 st raw1).1 raw2 h2
  rw [hid] at s2
  rw [s2, step env1 now1 st raw1 h1]
  simp

/-- Witness for C4: the same observation (`obsAlice`) processed twice from
the fresh state appends its record twice, in order. -/
theorem C4_history_append_only_witness :
    (obsAlice.text.getD "" ≠ "" ∧
     (getContactInfo (processMessage envOK "2024-01-01T00:00:00" initialState obsAlice).1
         (obsAlice.sender.getD "Unknown")).1.id
       = (getContactInfo initialState (obsAlice.sender.getD "Unknown")).1.id) ∧
    historyAt (processMessage envOK "2024-01-01T00:00:01"
        (processMessage envOK "2024-01-01T00:00:00" initialState obsAlice).1 obsAlice).1
        ((getContactInfo initialState (obsAlice.sender.getD "Unknown")).1.id)
      = historyAt initialState ((getContactInfo initialState (obsAlice.sender.getD "Unknown")).1.id)
          ++ [mkRecord "2024-01-01T00:00:00" obsAlice, mkRecord "2024-01-01T00:00:01" obsAlice] :=
  ⟨⟨by decide, by decide⟩,
    C4_history_append_only.2 envOK envOK "2024-01-01T00:00:00" "2024-01-01T00:00:01"
      initialState obsAlice obsAlice (by decide) (by decide) (by decide)⟩

/-- C5: every `process_message` call preserves the active-chat invariant —
the list gains at most one new contact id, appended at the end only when
that id was absent (first appearance), existing entries are never removed
or reordered (the old list is a prefix of the new one), and the list stays
duplicate-free. -/
theorem C5_active_chats_invariant :
    ∀ (env : Env) (now : String) (st : ForwarderState) (raw : RawObservation),
      st.active_chats.Nodup →
      ((processMessage env now st raw).1.active_chats = st.active_chats ∨
       ∃ cid, cid ∉ st.active_chats ∧
         (processMessage env now st raw).1.active_chats = st.active_chats ++ [cid]) ∧
      (processMessage env now st raw).1.active_chats.Nodup ∧
      st.active_chats <+: (processMessage env now st raw).1.active_chats := by
  intro env now st raw hnd
  by_cases h : raw.text.getD "" = ""
  · rw [processMessage_state_of_empty_text env now st raw h, getContactInfo_active_chats]
    exact ⟨Or.inl rfl, hnd, List.prefix_refl _⟩
  · rw [processMessage_active_of_text env now st raw h]
    by_cases hmem : (getContactInfo st (raw.sender.getD "Unknown")).1.id ∈ st.active_chats
    · rw [if_pos hmem]
      exact ⟨Or.inl rfl, hnd, List.prefix_refl _⟩
    · rw [if_neg hmem]
      refine ⟨Or.inr ⟨_, hmem, rfl⟩, ?_, List.prefix_append _ _⟩
      simp [List.nodup_append, hnd, hmem]

/-- Witness for C5 at the fresh (duplicate-free) state and a concrete
observation. -/
theorem C5_active_chats_invariant_witness :
    initialState.active_chats.Nodup ∧
    (((processMessage envOK "2024-01-01T00:00:00" initialState obsAlice).1.active_chats
        = initialState.active_chats ∨
      ∃ cid, cid ∉ initialState.active_chats ∧
        (processMessage envOK "2024-01-01T00:00:00" initialState obsAlice).1.active_chats
          = initialState.active_chats ++ [cid]) ∧
     (processMessage envOK "2024-01-01T00:00:00" initialState obsAlice).1.active_chats.Nodup ∧
     initialState.active_chats <+:
       (processMessage envOK "2024-01-01T00:00:00" initialState obsAlice).1.active_chats) :=
  ⟨by decide,
    C5_active_chats_invariant envOK "2024-01-01T00:00:00" initialState obsAlice (by decide)⟩

/-- C10: an observation with empty or missing text and no declared media
produces no outbound effect and leaves history, chat groups and active
chats untouched — but still resolves the sender: a previously unseen
sender string mints and caches a new Contact (growing the contact table,
and hence the placeholder numbering, by one) even though no message is
recorded. -/
theorem C10_empty_text_frame :
    ∀ (env : Env) (now : String) (st : ForwarderState) (raw : RawObservation),
      (raw.text = none ∨ raw.text = some "") →
      (raw.has_media = none ∨ raw.has_media = some false) →
      (processMessage env now st raw).2 = [] ∧
      (processMessage env now st raw).1.message_history = st.message_history ∧
      (processMessage env now st raw).1.chat_groups = st.chat_groups ∧
      (processMessage env now st raw).1.active_chats = st.active_chats ∧
      (processMessage env now st raw).1.contacts
        = (getContactInfo st (raw.sender.getD "Unknown")).2.contacts ∧
      (List.lookup (raw.sender.getD "Unknown") st.contacts = none →
        (processMessage env now st raw).1.contacts.length = st.contacts.length + 1 ∧
        List.lookup (raw.sender.getD "Unknown") (processMessage env now st raw).1.contacts
          = some (getContactInfo st (raw.sender.getD "Unknown")).1) := by
  intro env now st raw h1 h2
  have htext : raw.text.getD "" = "" := by rcases h1 with h | h <;> simp [h]
  have hmedia : raw.has_media.getD false = false := by rcases h2 with h | h <;> simp [h]
  have hstate := processMessage_state_of_empty_text env now st raw htext
  refine ⟨?_, ?_, ?_, ?_, ?_, ?_⟩
  · simp [processMessage, htext, hmedia]
  · rw [hstate, getContactInfo_message_history]
  · rw [hstate, getContactInfo_chat_groups]
  · rw [hstate, getContactInfo_active_chats]
  · rw [hstate]
  · intro hmiss
    constructor
    · rw [hstate, getContactInfo_contacts_of_none st _ hmiss]
      simp
    · rw [hstate]
      exact getContactInfo_lookup st _

/-- Witness for C10: `obsEmpty` (missing text, no media) from the fresh
state sends nothing, records nothing, yet caches a contact for `"Carol"`. -/
theorem C10_empty_text_frame_witness :
    (obsEmpty.text = none ∨ obsEmpty.text = some "") ∧
    (obsEmpty.has_media = none ∨ obsEmpty.has_media = some false) ∧
    ((processMessage envOK "2024-01-01T00:00:02" initialState obsEmpty).2 = [] ∧
     (processMessage envOK "2024-01-01T00:00:02" initialState obsEmpty).1.message_history
        = initialState.message_history ∧
     (processMessage envOK "2024-01-01T00:00:02" initialState obsEmpty).1.chat_groups
        = initialState.chat_groups ∧
     (processMessage envOK "2024-01-01T00:00:02" initialState obsEmpty).1.active_chats
        = initialState.active_chats ∧
     (processMessage envOK "2024-01-01T00:00:02" initialState obsEmpty).1.contacts
        = (getContactInfo initialState (obsEmpty.sender.getD "Unknown")).2.contacts ∧
     (List.lookup (obsEmpty.sender.getD "Unknown") initialState.contacts = none →
       (processMessage envOK "2024-01-01T00:00:02" initialState obsEmpty).1.contacts.length
          = initialState.contacts.length + 1 ∧
       List.lookup (obsEmpty.sender.getD "Unknown")
           (processMessage envOK "2024-01-01T00:00:02" initialState obsEmpty).1.contacts
          = some (getContactInfo initialState (obsEmpty.sender.getD "Unknown")).1)) :=
  ⟨Or.inl rfl, Or.inl rfl,
    C10_empty_text_frame envOK "2024-01-01T00:00:02" initialState obsEmpty
      (Or.inl rfl) (Or.inl rfl)⟩

theorem downloadAndSendMedia_fetch_fail (env : Env) (c : Contact) (d ch t : String)
    (h200 : env.fetchStatus ≠ 200) :
    downloadAndSendMedia env c d ch t
      = [Effect.logError ("Failed to download media: HTTP " ++ toString env.fetchStatus)] ∧
    (downloadAndSendMediaRaw env c d ch t).2 = none := by
  constructor <;> simp [downloadAndSendMedia, downloadAndSendMediaRaw, h200]

theorem processMessage_no_sentFile_of_fetch_fail (env : Env) (now : String)
    (st : ForwarderState) (raw : RawObservation) (h200 : env.fetchStatus ≠ 200)
    (p cap : String) : Effect.sentFile p cap ∉ (processMessage env now st raw).2 := by
  have hdl : ∀ c d ch t, downloadAndSendMedia env c d ch t
      = [Effect.logError ("Failed to download media: HTTP " ++ toString env.fetchStatus)] :=
    fun c d ch t => (downloadAndSendMedia_fetch_fail env c d ch t h200).1
  cases hmu : raw.media_url with
  | none =>
    simp only [processMessage, hmu]
    split_ifs <;> simp
  | some url =>
    simp only [processMessage, hmu]
    split_ifs <;> simp [hdl]

theorem processMessage_state_env_independent (env env2 : Env) (now : String)
    (st : ForwarderState) (raw : RawObservation) :
    (processMessage env2 now st raw).1 = (processMessage env now st raw).1 := by
  simp only [processMessage]
  by_cases htext : raw.text.getD "" = "" <;> simp [htext]

theorem processMessage_state_media_independent (env : Env) (now : String)
    (st : ForwarderState) (raw : RawObservation) :
    (processMessage env now st { raw with has_media := some false }).1
      = (processMessage env now st raw).1 := by
  simp only [processMessage]
  by_cases htext : raw.text.getD "" = "" <;> simp [htext, mkRecord]

/-- C7: a media observation whose fetch returns a non-2xx status never
unwinds into `process_message`: no exception escapes the media pipeline's
`try` block, the only media effect is the error log of line 398 (no
send-file call for any path), and the resulting state is exactly what the
text portion of the same observation produces on its own (the same
observation with media stripped, under any environment). -/
theorem C7_media_failure_contained :
    ∀ (env : Env) (now : String) (st : ForwarderState) (raw : RawObservation)
      (c : Contact) (d ch t : String),
      ¬ (200 ≤ env.fetchStatus ∧ env.fetchStatus < 300) →
      ((downloadAndSendMediaRaw env c d ch t).2 = none ∧
       downloadAndSendMedia env c d ch t
         = [Effect.logError ("Failed to download media: HTTP " ++ toString env.fetchStatus)] ∧
       (∀ p cap, Effect.sentFile p cap ∉ (processMessage env now st raw).2) ∧
       (∀ env2 : Env, (processMessage env2 now st raw).1 = (processMessage env now st raw).1) ∧
       (processMessage env now st raw).1
         = (processMessage env now st { raw with has_media := some false }).1) := by
  intro env now st raw c d ch t h2xx
  have h200 : env.fetchStatus ≠ 200 := fun he => h2xx ⟨by omega, by omega⟩
  exact ⟨(downloadAndSendMedia_fetch_fail env c d ch t h200).2,
    (downloadAndSendMedia_fetch_fail env c d ch t h200).1,
    fun p cap => processMessage_no_sentFile_of_fetch_fail env now st raw h200 p cap,
    fun env2 => processMessage_state_env_independent env env2 now st raw,
    (processMessage_state_media_independent env now st raw).symm⟩

/-- Witness for C7: a 404 fetch on the media observation `obsMedia`. -/
theorem C7_media_failure_contained_witness :
    ¬ (200 ≤ env404.fetchStatus ∧ env404.fetchStatus < 300) ∧
    ((downloadAndSendMediaRaw env404 ⟨"Bob", "unknown_1", "unknown_1"⟩
        "📥 Received" "Bob" "2024-01-01T00:00:01").2 = none ∧
     downloadAndSendMedia env404 ⟨"Bob", "unknown_1", "unknown_1"⟩
        "📥 Received" "Bob" "2024-01-01T00:00:01"
       = [Effect.logError ("Failed to download media: HTTP " ++ toString env404.fetchStatus)] ∧
     (∀ p cap, Effect.sentFile p cap
        ∉ (processMessage env404 "2024-01-01T00:00:01" initialState obsMedia).2) ∧
     (∀ env2 : Env, (processMessage env2 "2024-01-01T00:00:01" initialState obsMedia).1
        = (processMessage env404 "2024-01-01T00:00:01" initialState obsMedia).1) ∧
     (processMessage env404 "2024-01-01T00:00:01" initialState obsMedia).1
       = (processMessage env404 "2024-01-01T00:00:01" initialState
           { obsMedia with has_media := some false }).1) :=
  ⟨by decide,
    C7_media_failure_contained env404 "2024-01-01T00:00:01" initialState obsMedia
      ⟨"Bob", "unknown_1", "unknown_1"⟩ "📥 Received" "Bob" "2024-01-01T00:00:01"
      (by decide)⟩

/-- C8 counterexample: the transient file is NOT deleted unconditionally.
With a successful fetch (HTTP 200) and a `send_file` call that raises, the
trace contains the file write but no removal — the `os.remove` at line 396
sits after the send inside the `try` block, so the exception skips it and
the `except` handler only logs. -/
theorem C8_counterexample_leftover_file :
    Effect.wroteTemp "temp_media_1700000099.jpg"
      ∈ downloadAndSendMedia envSendFail ⟨"Alice", "15550100", "15550100"⟩
          "📥 Received" "Alice" "2024-01-01T00:00:00" ∧
    Effect.removedTemp "temp_media_1700000099.jpg"
      ∉ downloadAndSendMedia envSendFail ⟨"Alice", "15550100", "15550100"⟩
          "📥 Received" "Alice" "2024-01-01T00:00:00" :=
  ⟨by decide, by decide⟩

/-- C8 (amended): after a successful fetch the transient file is always
written; it is deleted exactly when the subsequent send-file call
succeeds.  When the send raises, the exception is caught and logged but
the transient file remains on disk. -/
theorem C8_cleanup_amended :
    ∀ (env : Env) (c : Contact) (d ch t : String),
      env.fetchStatus = 200 →
      Effect.wroteTemp env.tempName ∈ downloadAndSendMedia env c d ch t ∧
      (env.sendFileOk = true →
        downloadAndSendMedia env c d ch t
          = [Effect.wroteTemp env.tempName,
             Effect.sentFile env.tempName (mediaCaption d c ch t),
             Effect.logInfo ("Media forwarded to Telegram: " ++ d ++ " - " ++ c.display_name),
             Effect.removedTemp env.tempName] ∧
        Effect.removedTemp env.tempName ∈ downloadAndSendMedia env c d ch t) ∧
      (env.sendFileOk = false →
        downloadAndSendMedia env c d ch t
          = [Effect.wroteTemp env.tempName,
             Effect.logError ("Error downloading and sending media: " ++ env.sendFileErr)] ∧
        Effect.removedTemp env.tempName ∉ downloadAndSendMedia env c d ch t) := by
  intro env c d ch t h200
  refine ⟨?_, ?_, ?_⟩
  · cases hok : env.sendFileOk <;>
      simp [downloadAndSendMedia, downloadAndSendMediaRaw, h200, hok]
  · intro hok
    constructor <;> simp [downloadAndSendMedia, downloadAndSendMediaRaw, h200, hok]
  · intro hok
    constructor <;> simp [downloadAndSendMedia, downloadAndSendMediaRaw, h200, hok]

/-- Witness for C8 (amended) in the all-success environment `envOK`. -/
theorem C8_cleanup_amended_witness :
    envOK.fetchStatus = 200 ∧
    (Effect.wroteTemp envOK.tempName
        ∈ downloadAndSendMedia envOK ⟨"Alice", "15550100", "15550100"⟩
            "📥 Received" "Alice" "2024-01-01T00:00:00" ∧
     (envOK.sendFileOk = true →
       downloadAndSendMedia envOK ⟨"Alice", "15550100", "15550100"⟩
           "📥 Received" "Alice" "2024-01-01T00:00:00"
         = [Effect.wroteTemp envOK.tempName,
            Effect.sentFile envOK.tempName
              (mediaCaption "📥 Received" ⟨"Alice", "15550100", "15550100"⟩
                "Alice" "2024-01-01T00:00:00"),
            Effect.logInfo ("Media forwarded to Telegram: " ++ "📥 Received" ++ " - "
              ++ Contact.display_name ⟨"Alice", "15550100", "15550100"⟩),
            Effect.removedTemp envOK.tempName] ∧
       Effect.removedTemp envOK.tempName
         ∈ downloadAndSendMedia envOK ⟨"Alice", "15550100", "15550100"⟩
             "📥 Received" "Alice" "2024-01-01T00:00:00") ∧
     (envOK.sendFileOk = false →
       downloadAndSendMedia envOK ⟨"Alice", "15550100", "15550100"⟩
           "📥 Received" "Alice" "2024-01-01T00:00:00"
         = [Effect.wroteTemp envOK.tempName,
            Effect.logError ("Error downloading and sending media: " ++ envOK.sendFileErr)] ∧
       Effect.removedTemp envOK.tempName
         ∉ downloadAndSendMedia envOK ⟨"Alice", "15550100", "15550100"⟩
             "📥 Received" "Alice" "2024-01-01T00:00:00")) :=
  ⟨by decide,
    C8_cleanup_amended envOK ⟨"Alice", "15550100", "15550100"⟩
      "📥 Received" "Alice" "2024-01-01T00:00:00" (by decide)⟩

/-- C9: the `/chats` handler is broken for every normally-reached state.
From the fresh state, processing one text observation from
`"Alice (+1 5550100)"` puts the contact id `"15550100"` into
`active_chats`, but `self.contacts` is keyed by the raw sender string, so
the `self.contacts.get(contact_id, {'display_name': contact_id})` at line
471 misses and hands the loop a fallback dict with no `'phone_number'`
key: the f-string of line 472 raises `KeyError` and no reply is sent.
Only the empty-state branch (`"No active chats yet."`) behaves as the
claim describes. -/
theorem C9_chats_handler_keyerror :
    (processMessage envOK "2024-01-01T00:00:00" initialState obsAlice).1.active_chats
      = ["15550100"] ∧
    List.lookup "15550100"
      (processMessage envOK "2024-01-01T00:00:00" initialState obsAlice).1.contacts = none ∧
    chatsHandler (processMessage envOK "2024-01-01T00:00:00" initialState obsAlice).1
      = Except.error "KeyError: phone_number" ∧
    chatsHandler initialState = Except.ok "No active chats yet." :=
  ⟨by decide, by decide, by rfl, by rfl⟩

theorem historyChunks_nil (m : Nat) : historyChunks m [] = [] := by
  cases m with
  | zero => simp [historyChunks]
  | succ m' =>
    simp [historyChunks, Nat.div_eq_of_lt (Nat.lt_succ_self m')]

theorem historyChunks_cons (m : Nat) (hm : 0 < m) (s : List Char) (hs : s ≠ []) :
    historyChunks m s = s.take m :: historyChunks m (s.drop m) := by
  obtain ⟨m', rfl⟩ : ∃ m', m = m' + 1 := ⟨m - 1, by omega⟩
  have hlen : 1 ≤ s.length := by
    cases s with
    | nil => exact absurd rfl hs
    | cons a l => simp
  have hcount : (s.length + (m' + 1) - 1) / (m' + 1) = (s.length - 1) / (m' + 1) + 1 := by
    have he : s.length + (m' + 1) - 1 = (s.length - 1) + (m' + 1) := by omega
    rw [he, Nat.add_div_right _ (Nat.succ_pos m')]
  have hcount2 : ((s.drop (m' + 1)).length + (m' + 1) - 1) / (m' + 1)
      = (s.length - 1) / (m' + 1) := by
    rw [List.length_drop]
    by_cases hge : m' + 1 ≤ s.length
    · congr 1
      omega
    · have h1 : s.length - (m' + 1) = 0 := by omega
      have h2 : 0 + (m' + 1) - 1 = m' := by omega
      rw [h1, h2, Nat.div_eq_of_lt (by omega), Nat.div_eq_of_lt (by omega)]
  simp only [historyChunks, hcount, hcount2, List.range_succ_eq_map]
  simp only [List.map_cons, Nat.zero_mul, List.drop_zero, List.map_map]
  have hfun : ((fun k => List.take (m' + 1) (List.drop (k * (m' + 1)) s)) ∘ Nat.succ)
      = fun k => List.take (m' + 1) (List.drop (k * (m' + 1)) (List.drop (m' + 1) s)) := by
    funext k
    simp [Function.comp, List.drop_drop, Nat.succ_mul, Nat.add_comm]
  rw [hfun]

theorem historyChunks_flatten (m : Nat) (hm : 0 < m) :
    ∀ (n : Nat) (s : List Char), s.length ≤ n → (historyChunks m s).flatten = s := by
  intro n
  induction n with
  | zero =>
    intro s hs
    have hnil : s = [] := by cases s with
      | nil => rfl
      | cons a l => simp at hs
    rw [hnil, historyChunks_nil]
    simp
  | succ n ih =>
    intro s hs
    cases s with
    | nil => rw [historyChunks_nil]; simp
    | cons a l =>
      rw [historyChunks_cons m hm (a :: l) (by simp)]
      simp only [List.flatten_cons]
      rw [ih ((a :: l).drop m) (by rw [List.length_drop]; simp at hs ⊢; omega)]
      exact List.take_append_drop m (a :: l)

theorem historyChunks_length_le (m : Nat) (s : List Char) :
    ∀ c ∈ historyChunks m s, c.length ≤ m := by
  intro c hc
  simp only [historyChunks, List.mem_map, List.mem_range] at hc
  obtain ⟨k, _, rfl⟩ := hc
  rw [List.length_take]
  exact min_le_left _ _

/-- C6: for every history text and every positive configured maximum
length, the `/history` reply segments each have length at most the
maximum, they are cut at fixed character boundaries (segment `i` of a
long text is exactly the slice `[i*m, i*m+m)`), and concatenating all
segments in order reconstructs the original text exactly. -/
theorem C6_history_chunking :
    ∀ (m : Nat) (s : List Char), 0 < m →
      (∀ seg ∈ historySegments m s, seg.length ≤ m) ∧
      (historySegments m s).flatten = s ∧
      (s.length > m →
        ∀ (i : Nat) (hi : i < (historySegments m s).length),
          (historySegments m s).get ⟨i, hi⟩ = (s.drop (i * m)).take m) := by
  intro m s hm
  refine ⟨?_, ?_, ?_⟩
  · intro seg hseg
    simp only [historySegments] at hseg
    split at hseg
    · exact historyChunks_length_le m s seg hseg
    · next hle =>
      simp only [List.mem_singleton] at hseg
      subst hseg
      omega
  · simp only [historySegments]
    split
    · exact historyChunks_flatten m hm s.length s le_rfl
    · simp
  · intro hgt i hi
    simp only [historySegments, if_pos hgt] at hi
    rw [List.get_eq_getElem]
    simp [historySegments, historyChunks, hgt, List.getElem_map, List.getElem_range]

/-- Witness for C6: ten characters in chunks of four. -/
theorem C6_history_chunking_witness :
    0 < 4 ∧
    ((∀ seg ∈ historySegments 4 ("abcdefghij").data, seg.length ≤ 4) ∧
     (historySegments 4 ("abcdefghij").data).flatten = ("abcdefghij").data ∧
     (("abcdefghij").data.length > 4 →
       ∀ (i : Nat) (hi : i < (historySegments 4 ("abcdefghij").data).length),
         (historySegments 4 ("abcdefghij").data).get ⟨i, hi⟩
           = (("abcdefghij").data.drop (i * 4)).take 4)) :=
  ⟨by decide, C6_history_chunking 4 ("abcdefghij").data (by decide)⟩
